import Mathlib

/-!
Verification of the fault-tolerant pipeline orchestration layer of the
Chimera Multi-agent repository.

The definitions below are a shallow embedding of the Python source:

* `integrations/retry_utils.py` — retry decorators (`clickhouse_retry`,
  `datadog_retry`), dead-letter queue (`write_to_dlq`, `replay_dlq`);
* `integrations/clickhouse_client.py` — `check_data_freshness`;
* `agents/watcher.py` — `WatcherAgent` (`check_data_integrity`,
  `update_status_file`, `run_watcher_check`, `is_watcher_ok`);
* `agents/council.py` — `CouncilAgent` (`check_watcher_status`,
  `calculate_confidence_score`);
* `apps/muse_cli.py` — the `pipeline` command.

Machine state (the on-disk watcher flag, the DLQ directory) is passed
explicitly; wall-clock time is an explicit parameter; Python exceptions are
`Except` values.
-/

namespace Muse

/-- A Python exception as seen by the retry layer: its message and whether it
belongs to the retryable classes `(ConnectionError, TimeoutError)` selected by
`retry_if_exception_type` in `integrations/retry_utils.py`. -/
structure PyError where
  retryable : Bool
  msg : String
deriving DecidableEq, Repr

/-- One file in the `dlq/` directory, as written by `write_to_dlq`
(`integrations/retry_utils.py` lines 24-52): the operation name and the
stringified error. -/
structure DLQEntry where
  operation : String
  errorMsg : String
deriving DecidableEq, Repr

/-- `write_to_dlq` (`integrations/retry_utils.py` lines 24-52): appends one
JSON file named after the operation and a timestamp to the `dlq/` directory.
The directory is modelled as the list of entries in creation order. -/
def write_to_dlq (dlq : List DLQEntry) (operation : String) (error : PyError) :
    List DLQEntry :=
  dlq ++ [⟨operation, error.msg⟩]

/-- The tenacity `@retry(stop=stop_after_attempt maxA, retry=isRetryable)`
loop applied to a stateful body `f` (the inner `wrapper` of the decorators in
`integrations/retry_utils.py`).  `f` receives the zero-based invocation index
and the DLQ state; the loop re-invokes it while it raises a retryable error
and attempts remain.  Returns the final outcome, the final DLQ state and the
number of invocations of `f`. -/
def tenacityRetry (isRetryable : PyError → Bool)
    (f : Nat → List DLQEntry → Except PyError α × List DLQEntry) :
    Nat → Nat → List DLQEntry → Except PyError α × List DLQEntry × Nat
  | 0, n, dlq => (.error ⟨false, "no attempts"⟩, dlq, n)
  | remaining + 1, n, dlq =>
    match f n dlq with
    | (.ok a, dlq') => (.ok a, dlq', n + 1)
    | (.error e, dlq') =>
      if isRetryable e ∧ remaining ≥ 1 then
        tenacityRetry isRetryable f remaining (n + 1) dlq'
      else
        (.error e, dlq', n + 1)

/-- The inner `wrapper` of `clickhouse_retry` (`integrations/retry_utils.py`
lines 63-77): invoke the wrapped function; on any exception write a DLQ entry
named `clickhouse_<func>` and re-raise.  `op n` is the behaviour of the
wrapped function on its `n`-th invocation. -/
def clickhouseWrapper (funcName : String) (op : Nat → Except PyError α)
    (n : Nat) (dlq : List DLQEntry) : Except PyError α × List DLQEntry :=
  match op n with
  | .ok a => (.ok a, dlq)
  | .error e => (.error e, write_to_dlq dlq ("clickhouse_" ++ funcName) e)

/-- `clickhouse_retry` (`integrations/retry_utils.py` lines 55-78): the
durable profile — tenacity retry with `stop_after_attempt(3)` over the
DLQ-writing wrapper.  Starts with invocation count 0 and an initial DLQ
state. -/
def clickhouse_retry (funcName : String) (op : Nat → Except PyError α)
    (dlq : List DLQEntry) : Except PyError α × List DLQEntry × Nat :=
  tenacityRetry (·.retryable) (clickhouseWrapper funcName op) 3 0 dlq

/-- The inner `wrapper` of `datadog_retry` (`integrations/retry_utils.py`
lines 89-99): invoke the wrapped function; on any exception log and return
`None` — the exception is swallowed inside the wrapper, so the surrounding
tenacity layer never observes a failure.  No DLQ write. -/
def datadogWrapper (op : Nat → Except PyError α)
    (n : Nat) (dlq : List DLQEntry) : Except PyError (Option α) × List DLQEntry :=
  match op n with
  | .ok a => (.ok (some a), dlq)
  | .error _ => (.ok none, dlq)

/-- `datadog_retry` (`integrations/retry_utils.py` lines 81-99): the
best-effort profile — tenacity retry with `stop_after_attempt(2)` over the
swallowing wrapper. -/
def datadog_retry (op : Nat → Except PyError α)
    (dlq : List DLQEntry) : Except PyError (Option α) × List DLQEntry × Nat :=
  tenacityRetry (·.retryable) (datadogWrapper op) 2 0 dlq

/-- One file in the `dlq/` directory as seen by `replay_dlq`: whether
`json.load` succeeds on it, and the `operation` field it carries. -/
structure DLQFile where
  parseOk : Bool
  operation : String
deriving DecidableEq, Repr

/-- Substring containment, modelling Python's `sub in s` on strings. -/
def strContains (s sub : String) : Bool :=
  decide (List.IsInfix sub.data s.data)

/-- The body of the `for dlq_file in DLQ_DIR.glob("*.json")` loop of
`replay_dlq` (`integrations/retry_utils.py` lines 139-158), folded over the
state `(remaining files, replayed count, failed count)`: a file that fails to
parse is kept and counted failed; a file whose operation does not match the
filter is kept and not counted; otherwise the file is unlinked and counted
replayed. -/
def replayStep (filter : Option String)
    (st : List DLQFile × Nat × Nat) (f : DLQFile) : List DLQFile × Nat × Nat :=
  let (kept, replayed, failedCount) := st
  if f.parseOk then
    match filter with
    | some flt =>
      if strContains f.operation flt then
        (kept, replayed + 1, failedCount)
      else
        (kept ++ [f], replayed, failedCount)
    | none => (kept, replayed + 1, failedCount)
  else
    (kept ++ [f], replayed, failedCount + 1)

/-- `replay_dlq` (`integrations/retry_utils.py` lines 127-163): iterate over
every file of the DLQ directory, replaying (and unlinking) each matching
entry.  Returns the remaining directory contents, the count of succeeded
replays (the function's return value) and the count of failed ones (the
length of the `failed` list it logs). -/
def replay_dlq (filter : Option String) (files : List DLQFile) :
    List DLQFile × Nat × Nat :=
  files.foldl (replayStep filter) ([], 0, 0)

/-- A DLQ-directory file produced by a successful `write_to_dlq` for the
given operation: it is well-formed JSON, so `json.load` parses it. -/
def recordedFile (operation : String) : DLQFile :=
  ⟨true, operation⟩

/-- `check_data_freshness` (`integrations/clickhouse_client.py` lines
223-268), given the query results: each feed's row count and its
`COALESCE(MAX(ts), epoch)` last-seen timestamp (seconds since the epoch,
`0` = the epoch sentinel used when the feed has no rows).  A feed whose
last-seen timestamp is not strictly after the epoch gets the sentinel lag
`999999`; the returned lag is the `max` of the two per-feed lags. -/
def check_data_freshness (now : Int)
    (hearts_rows : Nat) (hearts_last_ts : Int)
    (packs_rows : Nat) (packs_last_ts : Int) : Nat × Nat × Int :=
  let hearts_lag : Int := if hearts_last_ts > 0 then now - hearts_last_ts else 999999
  let packs_lag : Int := if packs_last_ts > 0 then now - packs_last_ts else 999999
  (hearts_rows, packs_rows, max hearts_lag packs_lag)

/-- The verdict states produced by `WatcherAgent.check_data_integrity` and
`run_watcher_check` (`agents/watcher.py`). -/
inductive WStatus
  | valid
  | degraded
  | missing_hearts
  | missing_packs
  | lag_exceeded
  | error
deriving DecidableEq, Repr

/-- The string value of the `status` key of a watcher result dict. -/
def statusStr : WStatus → String
  | .valid => "valid"
  | .degraded => "degraded"
  | .missing_hearts => "missing_hearts"
  | .missing_packs => "missing_packs"
  | .lag_exceeded => "lag_exceeded"
  | .error => "error"

/-- `self.max_hearts_lag` set in `WatcherAgent.__init__`
(`agents/watcher.py` line 31): 5 minutes. -/
def max_hearts_lag : Int := 300

/-- `self.max_packs_lag` set in `WatcherAgent.__init__`
(`agents/watcher.py` line 32): 90 minutes. -/
def max_packs_lag : Int := 5400

/-- The classification chain of `WatcherAgent.check_data_integrity`
(`agents/watcher.py` lines 83-94), applied to the freshness query result. -/
def classify (allowDegraded : Bool) (hearts_rows packs_rows : Nat)
    (lag_seconds : Int) : WStatus :=
  if hearts_rows = 0 ∧ allowDegraded then .degraded
  else if hearts_rows = 0 then .missing_hearts
  else if packs_rows = 0 ∧ allowDegraded then .degraded
  else if packs_rows = 0 then .missing_packs
  else if lag_seconds > max_hearts_lag ∧ lag_seconds > max_packs_lag then .lag_exceeded
  else .valid

/-- `WatcherAgent.check_data_integrity` (`agents/watcher.py` lines 67-103):
on a successful freshness query classify the result; on an exception return
`degraded` (when `allow_degraded`) or `error`, with zeroed counts and the
sentinel lag. -/
def check_data_integrity (allowDegraded : Bool)
    (freshness : Except PyError (Nat × Nat × Int)) : WStatus × Nat × Nat × Int :=
  match freshness with
  | .ok (hearts_rows, packs_rows, lag_seconds) =>
    (classify allowDegraded hearts_rows packs_rows lag_seconds,
     hearts_rows, packs_rows, lag_seconds)
  | .error _ =>
    if allowDegraded then (.degraded, 0, 0, 999999) else (.error, 0, 0, 999999)

/-- The watcher status file `/tmp/watcher_ok`: absent, or holding the
timestamp (seconds since the epoch) it was written at. -/
abbrev GateFlag := Option Int

/-- `WatcherAgent.update_status_file` (`agents/watcher.py` lines 105-123):
write the current timestamp to the status file for `valid`/`degraded`,
otherwise remove the file. -/
def update_status_file (status : WStatus) (now : Int) (_flag : GateFlag) :
    GateFlag :=
  if status = .valid ∨ status = .degraded then some now else none

/-- The result dict of `WatcherAgent.run_watcher_check`
(`agents/watcher.py`), restricted to the keys the orchestration layer
reads. -/
structure WatcherResult where
  status : WStatus
  hearts_rows : Nat
  packs_rows : Nat
  lag_seconds : Int
  watcher_ok : Bool
deriving DecidableEq, Repr

/-- The tail of `run_watcher_check` after the status is known
(`agents/watcher.py` lines 189-238): update the status file, emit metrics
(whose own failures are swallowed inside `emit_metrics`), insert the watcher
run row and return the result dict.  When `insert_watcher_run` raises
(`insertOk = false`) the outer `except` returns a `degraded` or `error` dict
whose remaining fields are absent (modelled as zeros); the status file keeps
the value written before the exception. -/
def runTail (allowDegraded : Bool) (status : WStatus)
    (hearts_rows packs_rows : Nat) (lag_seconds : Int) (insertOk : Bool)
    (now : Int) (flag : GateFlag) : WatcherResult × GateFlag :=
  let flag' := update_status_file status now flag
  if insertOk then
    (⟨status, hearts_rows, packs_rows, lag_seconds,
      decide (status = .valid ∨ status = .degraded)⟩, flag')
  else if allowDegraded then
    (⟨.degraded, 0, 0, 0, true⟩, flag')
  else
    (⟨.error, 0, 0, 0, false⟩, flag')

/-- `WatcherAgent.run_watcher_check` (`agents/watcher.py` lines 150-238).
Inputs: the degraded override, the two commit strings returned by
`get_latest_commits` (`""` on a failed fetch), the outcome of the freshness
query, whether `insert_watcher_run` succeeds, the wall clock and the current
status file.  When either commit is empty and the degraded override is off,
the function returns an `error` dict immediately — before the status-file
update.  Returns the result dict and the final status file. -/
def run_watcher_check (allowDegraded : Bool)
    (hearts_commit packs_commit : String)
    (freshness : Except PyError (Nat × Nat × Int)) (insertOk : Bool)
    (now : Int) (flag : GateFlag) : WatcherResult × GateFlag :=
  if hearts_commit = "" ∨ packs_commit = "" then
    if allowDegraded then
      runTail allowDegraded .degraded 0 0 999999 insertOk now flag
    else
      (⟨.error, 0, 0, 999999, false⟩, flag)
  else
    let r := check_data_integrity allowDegraded freshness
    runTail allowDegraded r.1 r.2.1 r.2.2.1 r.2.2.2 insertOk now flag

/-- `WatcherAgent.is_watcher_ok` (`agents/watcher.py` lines 240-258): the
status file must exist and its age in minutes (`total_seconds() / 60`) must
be strictly below 30. -/
def is_watcher_ok (now : Int) (flag : GateFlag) : Bool :=
  match flag with
  | none => false
  | some status_time => decide (((now - status_time : ℚ) / 60) < 30)

/-- `CouncilAgent.check_watcher_status` (`agents/council.py` lines 32-56):
block (return `false`) when the status file is absent or its age in minutes
strictly exceeds 30; otherwise proceed (return `true`). -/
def check_watcher_status (now : Int) (flag : GateFlag) : Bool :=
  match flag with
  | none => false
  | some status_time =>
    if ((now - status_time : ℚ) / 60) > 30 then false else true

/-- One correlation data point as built by
`ClickHouseClient.get_correlation_data` and consumed by
`CouncilAgent.calculate_confidence_score` (`agents/council.py` lines
115-161).  The scorer reads `point["day"]` with bracket access — a missing
`day` raises `KeyError` — while `correlation`, `hearts_rows` and
`packs_rows` are read with `.get` and may be null or defaulted.  Days are
ordinal dates (integers), metrics are rationals. -/
structure CorrPoint where
  day : Option Int
  correlation : Option ℚ
  hearts_rows : Nat
  packs_rows : Nat
deriving DecidableEq, Repr

/-- `total_expected_days` (`agents/council.py` line 129). -/
def total_expected_days : ℚ := 7

/-- Data completeness (`agents/council.py` lines 129-131):
`min(1.0, actual_days / total_expected_days)`. -/
def completeness (w : List CorrPoint) : ℚ :=
  min 1 ((w.length : ℚ) / total_expected_days)

/-- Correlation strength (`agents/council.py` lines 134-135): the mean of
`abs(correlation)` over the points whose correlation is non-null, `0.0` when
none is. -/
def correlationStrength (w : List CorrPoint) : ℚ :=
  let correlations := (w.filterMap (·.correlation)).map (fun c => |c|)
  if correlations = [] then 0 else correlations.sum / (correlations.length : ℚ)

/-- Recency (`agents/council.py` lines 138-140) given the most recent day of
the window: `max(0.5, 1.0 - days_old / 7.0)`. -/
def recencyOf (today most_recent : Int) : ℚ :=
  max (1 / 2) (1 - ((today - most_recent : Int) : ℚ) / 7)

/-- Data quality (`agents/council.py` lines 143-146):
`min(1.0, total_rows_across_both_feeds / (7 * 10))`. -/
def dataQuality (w : List CorrPoint) : ℚ :=
  let expected_rows : ℚ := total_expected_days * 10
  min 1 ((((w.map (·.hearts_rows)).sum + (w.map (·.packs_rows)).sum : Nat) : ℚ)
    / expected_rows)

/-- The bracket accesses `point["day"]` of
`max(point["day"] for point in correlation_data)` (`agents/council.py` line
138): raises `KeyError` when a point has no `day`. -/
def daysOf (w : List CorrPoint) : Except String (List Int) :=
  w.mapM (fun p => match p.day with
    | some d => .ok d
    | none => .error "KeyError")

/-- Python's `max` over a list: raises `ValueError` on an empty sequence. -/
def listMax : List Int → Except String Int
  | [] => .error "ValueError"
  | d :: ds => .ok (ds.foldl max d)

/-- The body of the `try` block of `CouncilAgent.calculate_confidence_score`
(`agents/council.py` lines 124-157): empty data returns `(0.0, 0.0)`;
otherwise the four signals are computed and the score is their (left-nested)
minimum.  The only failing operations are the `point["day"]` accesses and
the `max` over them. -/
def calcBody (today : Int) (w : List CorrPoint) : Except String (ℚ × ℚ) :=
  if w = [] then .ok (0, 0)
  else do
    let days ← daysOf w
    let most_recent ← listMax days
    let confidence_score :=
      min (min (min (completeness w) (correlationStrength w))
        (recencyOf today most_recent)) (dataQuality w)
    .ok (confidence_score, correlationStrength w)

/-- `CouncilAgent.calculate_confidence_score` (`agents/council.py` lines
115-161): the `try` body, with every exception caught, logged and turned
into `(0.0, 0.0)`.  Never raises. -/
def calculate_confidence_score (today : Int) (w : List CorrPoint) : ℚ × ℚ :=
  match calcBody today w with
  | .ok r => r
  | .error _ => (0, 0)

/-- The statuses of the non-watcher stages of the `pipeline` CLI command
(`apps/muse_cli.py` lines 291-324), as reported by the respective agents:
the `status` values of the ingestor, collector, council, publisher and
translator results. -/
structure StageStatuses where
  ingest : String
  collect : String
  council : String
  publish : String
  translate : String
deriving DecidableEq, Repr

/-- The `pipeline` CLI command (`apps/muse_cli.py` lines 253-334).  Stage
results are stored into `pipeline_results` in execution order; the command
exits with code 1 (an early stop) as soon as a critical check fails.
Returns the ordered list of stage keys present in `pipeline_results` and
whether the run stopped early.  The gate check (line 286) compares the
watcher result's `status` against the literal `"ok"`. -/
def pipeline (watcher : WatcherResult) (stages : StageStatuses) :
    List String × Bool :=
  if statusStr watcher.status ≠ "ok" then
    (["watcher"], true)
  else if stages.council ≠ "success" then
    (["watcher", "ingest", "collect", "council"], true)
  else if stages.publish ≠ "success" then
    (["watcher", "ingest", "collect", "council", "publish"], true)
  else
    (["watcher", "ingest", "collect", "council", "publish", "translate"], false)

lemma completeness_nonneg (w : List CorrPoint) : 0 ≤ completeness w := by
  unfold completeness total_expected_days
  exact le_min (by norm_num) (by positivity)

lemma completeness_le_one (w : List CorrPoint) : completeness w ≤ 1 := by
  unfold completeness
  exact min_le_left _ _

lemma correlationStrength_nonneg (w : List CorrPoint) :
    0 ≤ correlationStrength w := by
  simp only [correlationStrength]
  split_ifs with h
  · exact le_refl 0
  · refine div_nonneg (List.sum_nonneg ?_) (Nat.cast_nonneg _)
    intro x hx
    obtain ⟨c, _, rfl⟩ := List.mem_map.mp hx
    exact abs_nonneg c

lemma recencyOf_nonneg (today most_recent : Int) :
    0 ≤ recencyOf today most_recent := by
  unfold recencyOf
  exact le_trans (by norm_num) (le_max_left _ _)

lemma dataQuality_nonneg (w : List CorrPoint) : 0 ≤ dataQuality w := by
  unfold dataQuality total_expected_days
  exact le_min (by norm_num) (by positivity)

/-- C1: The gate check of the `pipeline` CLI command compares the watcher
result's `status` against the literal `"ok"`, a value `run_watcher_check`
never produces — its statuses are `valid`, `degraded`, `missing_hearts`,
`missing_packs`, `lag_exceeded` and `error`.  Hence the pipeline stops
immediately after the gate stage, with only the `watcher` entry in the
report and an early-stop exit, for every verdict — including `valid`, for
which the ingestion stages were supposed to run. -/
theorem C1_pipeline_stops_at_gate_for_every_verdict :
    (∀ s : WStatus, statusStr s ≠ "ok") ∧
    (∀ w stages, pipeline w stages = (["watcher"], true)) ∧
    pipeline ⟨.valid, 5, 5, 100, true⟩
        ⟨"completed", "completed", "success", "success", "completed"⟩ =
      (["watcher"], true) := by
  have h : ∀ s : WStatus, statusStr s ≠ "ok" := by
    intro s
    cases s <;> decide
  refine ⟨h, ?_, rfl⟩
  intro w stages
  simp [pipeline, h w.status]

/-- C2: For the durable (ClickHouse) retry profile wrapping an operation
that always fails with a retryable connection error, the operation is
invoked exactly 3 times — but a DLQ entry is written on every attempt, so
three entries are recorded, not one: the DLQ write sits inside the wrapper
that the tenacity retry loop re-invokes. -/
theorem C2_durable_profile_writes_dlq_every_attempt :
    clickhouse_retry "insert_watcher_run"
        (fun _ => (.error ⟨true, "Connection refused"⟩ : Except PyError Unit)) [] =
      (.error ⟨true, "Connection refused"⟩,
       [⟨"clickhouse_insert_watcher_run", "Connection refused"⟩,
        ⟨"clickhouse_insert_watcher_run", "Connection refused"⟩,
        ⟨"clickhouse_insert_watcher_run", "Connection refused"⟩], 3) := by
  rfl

/-- C3 counterexample: with both feeds present (last seen at 900 and 800,
now = 1000), `check_data_freshness` reports a lag of 200 — the lag of the
staler feed — not `now - max(lastSeenA, lastSeenB) = 100` as the claim
states. -/
theorem C3_counterexample_lag_is_not_fresher_feed :
    (check_data_freshness 1000 5 900 7 800).2.2 = 200 ∧
    (1000 : Int) - max 900 800 = 100 ∧
    (check_data_freshness 1000 5 900 7 800).2.2 ≠ 1000 - max 900 800 := by
  decide

/-- C3 amended: when both last-seen timestamps are after the epoch,
`lagSeconds` is the maximum of the two per-feed lags, i.e.
`now - min(lastSeenA, lastSeenB)` — the lag of the staler feed. -/
theorem C3_lag_is_now_minus_min_lastseen (now : Int) (hr : Nat)
    (hearts_last_ts : Int) (pr : Nat) (packs_last_ts : Int)
    (hh : 0 < hearts_last_ts) (hp : 0 < packs_last_ts) :
    (check_data_freshness now hr hearts_last_ts pr packs_last_ts).2.2 =
      now - min hearts_last_ts packs_last_ts := by
  simp only [check_data_freshness, if_pos hh, if_pos hp]
  omega

/-- C3 amended, witness: at now = 1000 with last-seen 900 and 800 the lag is
1000 - min 900 800 = 200. -/
theorem C3_lag_witness :
    (check_data_freshness 1000 5 900 7 800).2.2 = 1000 - min 900 800 :=
  C3_lag_is_now_minus_min_lastseen 1000 5 900 7 800 (by decide) (by decide)

/-- C4: For the best-effort (Datadog) retry profile wrapping a telemetry
operation that always fails with a retryable connection error, the operation
is invoked exactly once — the wrapper swallows the exception and returns
`None` before the tenacity layer can observe it, so the 2-attempt retry
budget is never used.  The failure yields a null result, no exception to the
caller and no DLQ entry. -/
theorem C4_best_effort_swallows_without_retry :
    datadog_retry
        (fun _ => (.error ⟨true, "Connection reset"⟩ : Except PyError Unit)) [] =
      (.ok none, [], 1) := by
  rfl

/-- C5: A successful freshness query is classified `valid` exactly when both
row counts are positive and the lag does not exceed both feed thresholds
(300 s for hearts, 5400 s for packs) simultaneously; in particular a lag of
1000 s, above the hearts threshold alone, is still `valid`. -/
theorem C5_valid_iff_rows_positive_and_not_both_thresholds :
    (∀ (allowDegraded : Bool) (hearts_rows packs_rows : Nat) (lag : Int),
      (check_data_integrity allowDegraded
          (.ok (hearts_rows, packs_rows, lag))).1 = .valid ↔
        (0 < hearts_rows ∧ 0 < packs_rows ∧
          ¬(lag > max_hearts_lag ∧ lag > max_packs_lag))) ∧
    (check_data_integrity false (.ok (5, 7, 1000))).1 = .valid := by
  constructor
  · intro allowDegraded hearts_rows packs_rows lag
    simp only [check_data_integrity, classify, max_hearts_lag, max_packs_lag]
    split_ifs with h1 h2 h3 h4 h5 <;> (simp_all; try omega)
  · decide

/-- C6: After recording three entries, a filterless replay in which every
surfaced entry is treated as successfully redelivered empties the queue and
reports 3 succeeded and 0 failed replays. -/
theorem C6_replay_empties_queue_and_counts (op1 op2 op3 : String) :
    replay_dlq none [recordedFile op1, recordedFile op2, recordedFile op3] =
      ([], 3, 0) := by
  rfl

/-- C7: On a non-empty correlation window whose days are all present (so the
`max` over `point["day"]` succeeds with most-recent day `mr`), the computed
confidence score is exactly the minimum of the four signals — completeness,
correlation strength, recency and data quality — and lies in `[0, 1]`. -/
theorem C7_confidence_is_min_of_four_signals (today : Int)
    (w : List CorrPoint) (hne : w ≠ []) (mr : Int)
    (hmr : daysOf w >>= listMax = .ok mr) :
    calculate_confidence_score today w =
      (min (min (min (completeness w) (correlationStrength w))
          (recencyOf today mr)) (dataQuality w),
        correlationStrength w) ∧
    0 ≤ (calculate_confidence_score today w).1 ∧
    (calculate_confidence_score today w).1 ≤ 1 := by
  have hbody : calcBody today w =
      .ok (min (min (min (completeness w) (correlationStrength w))
          (recencyOf today mr)) (dataQuality w),
        correlationStrength w) := by
    unfold calcBody
    rw [if_neg hne]
    cases hd : daysOf w with
    | error e => rw [hd] at hmr; simp [bind, Except.bind] at hmr
    | ok days =>
      rw [hd] at hmr
      simp only [bind, Except.bind] at hmr ⊢
      rw [hmr]
  have hscore : calculate_confidence_score today w =
      (min (min (min (completeness w) (correlationStrength w))
          (recencyOf today mr)) (dataQuality w),
        correlationStrength w) := by
    unfold calculate_confidence_score
    rw [hbody]
  refine ⟨hscore, ?_, ?_⟩
  · rw [hscore]
    exact le_min (le_min (le_min (completeness_nonneg w)
      (correlationStrength_nonneg w)) (recencyOf_nonneg today mr))
      (dataQuality_nonneg w)
  · rw [hscore]
    calc min (min (min (completeness w) (correlationStrength w))
        (recencyOf today mr)) (dataQuality w)
        ≤ min (min (completeness w) (correlationStrength w))
          (recencyOf today mr) := min_le_left _ _
      _ ≤ min (completeness w) (correlationStrength w) := min_le_left _ _
      _ ≤ completeness w := min_le_left _ _
      _ ≤ 1 := completeness_le_one w

/-- C7 witness: the single-point window `{day 0, correlation 1/2, 3 hearts
rows, 4 packs rows}` seen from day 1. -/
theorem C7_confidence_witness :
    calculate_confidence_score 1 [⟨some 0, some (1/2), 3, 4⟩] =
      (min (min (min (completeness [⟨some 0, some (1/2), 3, 4⟩])
          (correlationStrength [⟨some 0, some (1/2), 3, 4⟩]))
          (recencyOf 1 0)) (dataQuality [⟨some 0, some (1/2), 3, 4⟩]),
        correlationStrength [⟨some 0, some (1/2), 3, 4⟩]) ∧
    0 ≤ (calculate_confidence_score 1 [⟨some 0, some (1/2), 3, 4⟩]).1 ∧
    (calculate_confidence_score 1 [⟨some 0, some (1/2), 3, 4⟩]).1 ≤ 1 :=
  C7_confidence_is_min_of_four_signals 1 [⟨some 0, some (1/2), 3, 4⟩]
    (List.cons_ne_nil _ _) 0 (by rfl)

/-- C8: `calculate_confidence_score` returns `(0, 0)` on the empty window,
and whenever the computation body raises it catches the exception and
returns `(0, 0)`; its result type is total, so nothing propagates to the
caller. -/
theorem C8_empty_window_and_exceptions_yield_zero :
    (∀ today, calculate_confidence_score today [] = (0, 0)) ∧
    (∀ today w e, calcBody today w = .error e →
      calculate_confidence_score today w = (0, 0)) := by
  constructor
  · intro today
    rfl
  · intro today w e h
    unfold calculate_confidence_score
    rw [h]

/-- C8 witness: a window whose point lacks its `day` key makes the body
raise `KeyError`, and the function returns `(0, 0)`. -/
theorem C8_exception_witness :
    calculate_confidence_score 0 [⟨none, none, 0, 0⟩] = (0, 0) :=
  C8_empty_window_and_exceptions_yield_zero.2 0 [⟨none, none, 0, 0⟩]
    "KeyError" (by rfl)

/-- C9 counterexample: when commit fetching fails (empty commit strings) and
the degraded override is off, `run_watcher_check` returns verdict `error`
through an early return that never reaches `update_status_file` — a
pre-existing gate flag survives un-cleared. -/
theorem C9_counterexample_error_path_keeps_flag :
    (run_watcher_check false "" "" (.ok (5, 5, 100)) true 1000 (some 0)).1.status
        = .error ∧
    (run_watcher_check false "" "" (.ok (5, 5, 100)) true 1000 (some 0)).2
        = some 0 := by
  decide

/-- C9 amended: when both commits are fetched (non-empty), the evaluation
writes the flag iff the classified status is `valid` or `degraded` and
clears it otherwise — regardless of whether the later watcher-run insert
raises; when commit fetching fails with the degraded override off, the run
returns early and the flag is left untouched. -/
theorem C9_flag_written_iff_classified_ok (allowDegraded : Bool)
    (hearts_commit packs_commit : String)
    (freshness : Except PyError (Nat × Nat × Int)) (insOk : Bool)
    (now : Int) (flag : GateFlag)
    (hhc : hearts_commit ≠ "") (hpc : packs_commit ≠ "") :
    (run_watcher_check allowDegraded hearts_commit packs_commit freshness
        insOk now flag).2 =
      (if (check_data_integrity allowDegraded freshness).1 = .valid ∨
          (check_data_integrity allowDegraded freshness).1 = .degraded
        then some now else none) ∧
    (run_watcher_check false "" packs_commit freshness insOk now flag).2 =
      flag := by
  constructor
  · cases insOk <;> cases allowDegraded <;>
      simp [run_watcher_check, hhc, hpc, runTail, update_status_file]
  · simp [run_watcher_check]

/-- C9 amended, witness: a valid run at time 7 writes the flag; the early
error return keeps the (absent) flag. -/
theorem C9_flag_witness :
    (run_watcher_check false "h" "p" (.ok (5, 5, 100)) true 7 none).2 =
      (if (check_data_integrity false (.ok (5, 5, 100))).1 = .valid ∨
          (check_data_integrity false (.ok (5, 5, 100))).1 = .degraded
        then some 7 else none) ∧
    (run_watcher_check false "" "p" (.ok (5, 5, 100)) true 7 none).2 = none :=
  C9_flag_written_iff_classified_ok false "h" "p" (.ok (5, 5, 100)) true 7
    none (by decide) (by decide)

/-- C10: For a gate flag whose age is exactly 1800 seconds, the watcher's
own reader `is_watcher_ok` reports closed (it requires age strictly below 30
minutes) while the council's reader `check_watcher_status` reports open (it
blocks only strictly above 30 minutes) — the two disagree at the TTL
boundary. -/
theorem C10_ttl_boundary_disagreement (t now : Int) (h : now - t = 1800) :
    is_watcher_ok now (some t) = false ∧
    check_watcher_status now (some t) = true := by
  have hq : ((now : ℚ) - (t : ℚ)) = 1800 := by exact_mod_cast h
  constructor
  · simp only [is_watcher_ok, hq, decide_eq_false_iff_not]
    norm_num
  · simp only [check_watcher_status, hq]
    norm_num

/-- C10 witness: a flag written at time 0 read at time 1800. -/
theorem C10_ttl_witness :
    is_watcher_ok 1800 (some 0) = false ∧
    check_watcher_status 1800 (some 0) = true :=
  C10_ttl_boundary_disagreement 0 1800 (by decide)

end Muse
